import Mathlib

/-!
Verification of the vo-siav2 / sia SIAv2 service against its
natural-language specification.

The definitions below are a shallow embedding of the Python sources:

* `src/sia/models/common.py` (`CaseInsensitiveEnum._missing_`)
* `src/sia/models/sia_query_params.py` (`SIAQueryParams`, enums,
  `to_butler_parameters`)
* `src/sia/dependencies/query_params.py` (`sia_post_params_dependency`)
* `src/sia/constants.py` (`SINGLE_PARAMS`)
* `src/sia/services/data_collections.py` (`DataCollectionService`)
* `src/vosiav2/services/config_reader.py` (`get_data_collection`)
* `src/sia/factory.py` (`Factory.create_butler`)
* `src/sia/services/response_handler.py` (`_generate_band_info`,
  `process_query`)
* `src/sia/services/availability.py` (availability checkers)
* `src/sia/exceptions.py` (the VOTable fault classes)

Python `str | None` values become `Option String`, container fields
become `List`, exceptions become `Except` with an explicit error
inductive, and the external Butler / httpx calls are passed in as
function parameters so that the control flow around them stays exactly
the source's.
-/

deriving instance DecidableEq for Except

/-! ## Python string helpers -/

/-- Python `str.lower` (ASCII range, which covers every string the
service compares). -/
def pyLower (s : String) : String := ⟨s.data.map Char.toLower⟩

/-- Python `str.upper` (ASCII range). -/
def pyUpper (s : String) : String := ⟨s.data.map Char.toUpper⟩

/-- Python `str.capitalize`: first character upper-cased, the rest
lower-cased. -/
def pyCapitalize (s : String) : String :=
  match s.data with
  | [] => ""
  | c :: cs => ⟨c.toUpper :: cs.map Char.toLower⟩

/-- Python `repr` of a string as used in f-string `{value!r}` (the common
case: surrounding single quotes). -/
def pyRepr (s : String) : String := "'" ++ s ++ "'"

/-- Truthiness of a Python `str | None` value: falsy iff `None` or `""`. -/
def optStrFalsy : Option String → Bool
  | none => true
  | some s => s = ""

/-! ## Fault taxonomy (`src/sia/exceptions.py`)

Each `VOTableError` subclass prefixes its detail with the fault kind in
`__init__`; `__str__` returns the stored detail.  `PyExc` also carries
the plain Python exceptions (`ValueError`, `KeyError`) and the httpx
transport errors that the availability code can encounter, so that
`try/except` clauses can be modelled faithfully. -/

inductive PyExc where
  | valueError (msg : String)
  | keyError (msg : String)
  | typeError (msg : String)
  | usageFault (detail : String)
  | transientFault (detail : String)
  | fatalFault (detail : String)
  | defaultFault (detail : String)
  | requestError (msg : String)
  deriving DecidableEq, Repr

/-- `str(exc)`: the fault classes store `"<Kind>: <detail>"` in
`self.detail` at construction time and `__str__` returns it; plain
exceptions render their message. -/
def PyExc.str : PyExc → String
  | .valueError m => m
  | .keyError m => m
  | .typeError m => m
  | .usageFault d => "UsageFault: " ++ d
  | .transientFault d => "TransientFault: " ++ d
  | .fatalFault d => "FatalFault: " ++ d
  | .defaultFault d => "DefaultFault: " ++ d
  | .requestError m => m

/-! ## Case-insensitive enums (`src/sia/models/common.py`)

`CaseInsensitiveEnum._missing_` scans the members and compares
lower-cased values; Python's `Enum.__call__` tries an exact value match
before falling back to `_missing_`.  An enum class is modelled by its
ordered member list `(value, member)`. -/

/-- Resolution of a string against a `CaseInsensitiveEnum`: Python first
looks for an exact value match, then `_missing_` does the
case-insensitive scan, raising
`ValueError(f"{value!r} is not a valid {cls.__name__}")` when nothing
matches. -/
def enumResolve {V : Type} (enumName : String)
    (members : List (String × V)) (value : String) : Except PyExc V :=
  match members.find? (fun m => m.1 = value) with
  | some m => .ok m.2
  | none =>
    match members.find? (fun m => pyLower m.1 = pyLower value) with
    | some m => .ok m.2
    | none =>
      .error (.valueError (pyRepr value ++ " is not a valid " ++ enumName))

inductive Shape where
  | CIRCLE | RANGE | POLYGON
  deriving DecidableEq, Repr

/-- Member list of `Shape`, in declaration order. -/
def Shape.members : List (String × Shape) :=
  [("CIRCLE", .CIRCLE), ("RANGE", .RANGE), ("POLYGON", .POLYGON)]

inductive DPType where
  | IMAGE | CUBE
  deriving DecidableEq, Repr

/-- Member list of `DPType`, in declaration order. -/
def DPType.members : List (String × DPType) :=
  [("IMAGE", .IMAGE), ("CUBE", .CUBE)]

inductive Polarization where
  | I | Q | U | V | RR | LL | RL | LR | XX | YY | XY | YX
  deriving DecidableEq, Repr

/-- Member list of `Polarization`, in declaration order. -/
def Polarization.members : List (String × Polarization) :=
  [("I", .I), ("Q", .Q), ("U", .U), ("V", .V), ("RR", .RR), ("LL", .LL),
   ("RL", .RL), ("LR", .LR), ("XX", .XX), ("YY", .YY), ("XY", .XY),
   ("YX", .YX)]

/-- `ButlerType` (`src/sia/models/butler_type.py`), also a
`CaseInsensitiveEnum`. -/
inductive ButlerType where
  | DIRECT | REMOTE
  deriving DecidableEq, Repr

/-- Member list of `ButlerType`, in declaration order. -/
def ButlerType.members : List (String × ButlerType) :=
  [("DIRECT", .DIRECT), ("REMOTE", .REMOTE)]

/-- `CalibLevel` (`int`-valued enum, not case-insensitive). -/
inductive CalibLevel where
  | LEVEL0 | LEVEL1 | LEVEL2 | LEVEL3
  deriving DecidableEq, Repr

/-- `CalibLevel.value`. -/
def CalibLevel.value : CalibLevel → Int
  | .LEVEL0 => 0
  | .LEVEL1 => 1
  | .LEVEL2 => 2
  | .LEVEL3 => 3

/-! ## `SIAQueryParams` (`src/sia/models/sia_query_params.py`)

A dataclass whose fields are all optional; `__post_init__` forces
`maxrec := 0` when every field other than `maxrec`/`responseformat` is
`None`. -/

structure SIAQueryParams where
  pos : Option (List String) := none
  format : Option (List String) := none
  time : Option (List String) := none
  band : Option (List String) := none
  pol : Option (List Polarization) := none
  fov : Option (List String) := none
  spatres : Option (List String) := none
  exptime : Option (List String) := none
  timeres : Option (List String) := none
  specrp : Option (List String) := none
  id : Option (List String) := none
  dptype : Option (List DPType) := none
  calib : Option (List CalibLevel) := none
  target : Option (List String) := none
  collection : Option (List String) := none
  facility : Option (List String) := none
  instrument : Option (List String) := none
  maxrec : Option Int := none
  responseformat : Option String := none
  deriving DecidableEq, Repr

/-- `SIAQueryParams.all_params_none`: every annotated field except
`maxrec` and `responseformat` is `None`. -/
def SIAQueryParams.all_params_none (p : SIAQueryParams) : Bool :=
  p.pos.isNone && p.format.isNone && p.time.isNone && p.band.isNone &&
  p.pol.isNone && p.fov.isNone && p.spatres.isNone && p.exptime.isNone &&
  p.timeres.isNone && p.specrp.isNone && p.id.isNone && p.dptype.isNone &&
  p.calib.isNone && p.target.isNone && p.collection.isNone &&
  p.facility.isNone && p.instrument.isNone

/-- `SIAQueryParams.__post_init__`, run by the dataclass constructor
after the fields are assigned. -/
def SIAQueryParams.post_init (p : SIAQueryParams) : SIAQueryParams :=
  if p.all_params_none then { p with maxrec := some 0 } else p

/-- Constructing a `SIAQueryParams` from field values: dataclass field
assignment followed by `__post_init__`. -/
def SIAQueryParams.construct (p : SIAQueryParams) : SIAQueryParams :=
  p.post_init

/-- C1 -- If every field other than `maxrec` and `responseformat` is
`None`, construction forces `maxrec = 0` regardless of the supplied
`maxrec`, and re-running construction on the resulting field values
yields `maxrec = 0` again. -/
theorem C1_empty_params_force_maxrec_zero (p : SIAQueryParams)
    (h : p.all_params_none = true) :
    (SIAQueryParams.construct p).maxrec = some 0 ∧
    (SIAQueryParams.construct (SIAQueryParams.construct p)).maxrec =
      some 0 := by
  have key : ∀ q : SIAQueryParams, q.all_params_none = true →
      SIAQueryParams.construct q = { q with maxrec := some 0 } := by
    intro q hq
    unfold SIAQueryParams.construct SIAQueryParams.post_init
    rw [if_pos hq]
  have hall : (SIAQueryParams.construct p).all_params_none = true := by
    rw [key p h]
    simp only [SIAQueryParams.all_params_none] at h ⊢
    exact h
  exact ⟨by rw [key p h], by rw [key _ hall]⟩

/-- C1 witness: a caller-supplied `maxrec = 5` with every other field
unset is forced to `0`, idempotently. -/
theorem C1_empty_params_force_maxrec_zero_witness :
    (SIAQueryParams.construct { maxrec := some 5 }).maxrec = some 0 ∧
    (SIAQueryParams.construct
      (SIAQueryParams.construct { maxrec := some 5 })).maxrec = some 0 :=
  C1_empty_params_force_maxrec_zero { maxrec := some 5 } (by decide)

/-! ## Claim C8: case-insensitive enum resolution -/

/-- Round-trip property of one case-insensitive enum class: every
member's value resolves to that member from both its upper-cased and
its lower-cased spelling. -/
def EnumRoundTrips {V : Type} [DecidableEq V] (name : String)
    (members : List (String × V)) : Prop :=
  ∀ m ∈ members,
    enumResolve name members (pyUpper m.1) = .ok m.2 ∧
    enumResolve name members (pyLower m.1) = .ok m.2

/-- C8 -- For every case-insensitive enum class of the service (`Shape`,
`DPType`, `Polarization`, `ButlerType`) and every variant, resolving the
upper-cased and the lower-cased form of the variant's value returns that
variant; and for any member list, a string matching no member value
case-insensitively resolves to a `ValueError` naming the enum class and
the offending input. -/
theorem C8_enum_resolution {V : Type} (name : String)
    (members : List (String × V)) (value : String)
    (h : ∀ m ∈ members, pyLower m.1 ≠ pyLower value) :
    (EnumRoundTrips "Shape" Shape.members ∧
     EnumRoundTrips "DPType" DPType.members ∧
     EnumRoundTrips "Polarization" Polarization.members ∧
     EnumRoundTrips "ButlerType" ButlerType.members) ∧
    enumResolve name members value =
      .error (.valueError (pyRepr value ++ " is not a valid " ++ name)) := by
  constructor
  · refine ⟨?_, ?_, ?_, ?_⟩ <;> · unfold EnumRoundTrips
                                  decide
  · have h1 : members.find? (fun m => m.1 = value) = none := by
      rw [List.find?_eq_none]
      intro x hx
      simp only [decide_eq_true_eq]
      intro heq
      exact h x hx (by rw [heq])
    have h2 : members.find? (fun m => pyLower m.1 = pyLower value) =
        none := by
      rw [List.find?_eq_none]
      intro x hx
      simp only [decide_eq_true_eq]
      exact h x hx
    simp [enumResolve, h1, h2]

/-- C8 witness: `"circle"`/`"CIRCLE"` resolve to `Shape.CIRCLE`, and
`"TRIANGLE"` fails with the `ValueError` naming `Shape` and the input. -/
theorem C8_enum_resolution_witness :
    (EnumRoundTrips "Shape" Shape.members ∧
     EnumRoundTrips "DPType" DPType.members ∧
     EnumRoundTrips "Polarization" Polarization.members ∧
     EnumRoundTrips "ButlerType" ButlerType.members) ∧
    enumResolve "Shape" Shape.members "TRIANGLE" =
      .error (.valueError (pyRepr "TRIANGLE" ++ " is not a valid " ++
        "Shape")) :=
  C8_enum_resolution "Shape" Shape.members "TRIANGLE" (by decide)

/-! ## POST parameter normalizer
(`src/sia/dependencies/query_params.py`, `src/sia/constants.py`)

The form/JSON body arrives as an ordered list of `(key, value)` pairs;
`sia_post_params_dependency` appends each value to
`params_dict[key.lower()]` (an insertion-ordered `defaultdict(list)`),
then converts: keys in `SINGLE_PARAMS` keep `value[0]`, everything else
keeps the whole list. -/

/-- `SINGLE_PARAMS` (`src/sia/constants.py`). -/
def SINGLE_PARAMS : List String := ["maxrec", "responseformat"]

/-- A value of `converted_params_dict`: a single string for
`SINGLE_PARAMS` keys, the ordered list for the rest. -/
inductive ParamValue where
  | single (v : String)
  | multi (vs : List String)
  deriving DecidableEq, Repr

/-- `params_dict[k].append(v)` on an insertion-ordered `defaultdict`:
append to the existing entry, or add a new entry at the end. -/
def addParam : List (String × List String) → String → String →
    List (String × List String)
  | [], k, v => [(k, [v])]
  | (k', vs) :: rest, k, v =>
    if k' = k then (k', vs ++ [v]) :: rest
    else (k', vs) :: addParam rest k v

/-- The collection loop: `for key, value in ...:
params_dict[key.lower()].append(value)`. -/
def collectParams (items : List (String × String)) :
    List (String × List String) :=
  items.foldl (fun acc kv => addParam acc (pyLower kv.1) kv.2) []

/-- `value[0]` (entries of `params_dict` are never empty, so the default
is never used). -/
def firstValue (vs : List String) : String := vs.headD ""

/-- The conversion loop: single-valued keys keep the first value,
multi-valued keys keep the full list. -/
def convertParams : List (String × List String) →
    List (String × ParamValue)
  | [] => []
  | (k, vs) :: rest =>
    (if k ∈ SINGLE_PARAMS then (k, ParamValue.single (firstValue vs))
     else (k, ParamValue.multi vs)) :: convertParams rest

/-- First-match lookup in the ordered dict, `[]` when absent. -/
def lookupVals : List (String × List String) → String → List String
  | [], _ => []
  | (k', vs) :: rest, k => if k' = k then vs else lookupVals rest k

/-- First-match lookup in the ordered dict, `none` when absent. -/
def lookupEntry : List (String × List String) → String →
    Option (List String)
  | [], _ => none
  | (k', vs) :: rest, k => if k' = k then some vs else lookupEntry rest k

/-- First-match lookup in the converted dict. -/
def lookupParam : List (String × ParamValue) → String → Option ParamValue
  | [], _ => none
  | (k', v) :: rest, k => if k' = k then some v else lookupParam rest k

/-- All raw values supplied for lower-cased key `k` across every casing
of the key, in encounter order: the reference point for what the
normalizer must keep. -/
def suppliedValues (items : List (String × String)) (k : String) :
    List String :=
  (items.filter (fun kv => pyLower kv.1 = k)).map Prod.snd

theorem lookupVals_addParam (acc : List (String × List String))
    (k' v k : String) :
    lookupVals (addParam acc k' v) k =
      if k' = k then lookupVals acc k ++ [v] else lookupVals acc k := by
  induction acc with
  | nil =>
    by_cases hk : k' = k <;> simp [addParam, lookupVals, hk]
  | cons head rest ih =>
    obtain ⟨a, vs⟩ := head
    by_cases ha : a = k'
    · subst ha
      by_cases hk : a = k <;> simp [addParam, lookupVals, hk]
    · by_cases hk : a = k
      · subst hk
        have hne : ¬k' = a := fun h => ha h.symm
        simp [addParam, lookupVals, ha, hne]
      · simp [addParam, lookupVals, ha, hk, ih]

theorem lookupVals_foldl (items : List (String × String))
    (acc : List (String × List String)) (k : String) :
    lookupVals
      (items.foldl (fun acc kv => addParam acc (pyLower kv.1) kv.2) acc)
      k = lookupVals acc k ++ suppliedValues items k := by
  induction items generalizing acc with
  | nil => simp [suppliedValues]
  | cons x xs ih =>
    simp only [List.foldl_cons, ih, suppliedValues, List.filter_cons]
    by_cases hx : pyLower x.1 = k
    · simp [lookupVals_addParam, hx, suppliedValues]
    · simp [lookupVals_addParam, hx, suppliedValues]

theorem lookupVals_collectParams (items : List (String × String))
    (k : String) :
    lookupVals (collectParams items) k = suppliedValues items k := by
  simpa [lookupVals] using lookupVals_foldl items [] k

theorem lookupVals_eq_lookupEntry (d : List (String × List String))
    (k : String) :
    lookupVals d k = (lookupEntry d k).getD [] := by
  induction d with
  | nil => simp [lookupVals, lookupEntry]
  | cons head rest ih =>
    obtain ⟨a, vs⟩ := head
    by_cases ha : a = k <;> simp [lookupVals, lookupEntry, ha, ih]

theorem lookupParam_convertParams (d : List (String × List String))
    (k : String) :
    lookupParam (convertParams d) k =
      (lookupEntry d k).map (fun vs =>
        if k ∈ SINGLE_PARAMS then ParamValue.single (firstValue vs)
        else ParamValue.multi vs) := by
  induction d with
  | nil => simp [convertParams, lookupParam, lookupEntry]
  | cons head rest ih =>
    obtain ⟨a, vs⟩ := head
    by_cases hs : a ∈ SINGLE_PARAMS
    · simp only [convertParams, if_pos hs]
      by_cases ha : a = k
      · subst ha
        simp [lookupParam, lookupEntry, hs]
      · simp [lookupParam, lookupEntry, ha, ih]
    · simp only [convertParams, if_neg hs]
      by_cases ha : a = k
      · subst ha
        simp [lookupParam, lookupEntry, hs]
      · simp [lookupParam, lookupEntry, ha, ih]

/-- C2 -- The normalizer maps each supplied key (any casing) to its
lower-cased form, merging all casings in encounter order; keys whose
lower-cased form is in `SINGLE_PARAMS` (`maxrec`, `responseformat`)
keep only the first supplied value, every other key keeps the full
ordered value sequence. -/
theorem C2_normalizer_single_vs_multi (items : List (String × String))
    (k : String) (h : suppliedValues items (pyLower k) ≠ []) :
    lookupParam (convertParams (collectParams items)) (pyLower k) =
      some (if pyLower k ∈ SINGLE_PARAMS
        then ParamValue.single (firstValue (suppliedValues items (pyLower k)))
        else ParamValue.multi (suppliedValues items (pyLower k))) := by
  have hv := lookupVals_collectParams items (pyLower k)
  rw [lookupVals_eq_lookupEntry] at hv
  rw [lookupParam_convertParams]
  cases he : lookupEntry (collectParams items) (pyLower k) with
  | none => rw [he] at hv; simp at hv; exact absurd hv h
  | some vs =>
    rw [he] at hv
    simp only [Option.getD_some] at hv
    simp [hv]

/-- C2 witness: raw `[("MAXREC","5"), ("maxrec","9"), ("POS","a"),
("pos","b")]` normalizes `maxrec` to the single first value `"5"` and
`pos` to the merged ordered list `["a","b"]`. -/
theorem C2_normalizer_single_vs_multi_witness :
    lookupParam (convertParams (collectParams
        [("MAXREC", "5"), ("maxrec", "9"), ("POS", "a"), ("pos", "b")]))
      (pyLower "MAXREC") = some (ParamValue.single "5") ∧
    lookupParam (convertParams (collectParams
        [("MAXREC", "5"), ("maxrec", "9"), ("POS", "a"), ("pos", "b")]))
      (pyLower "POS") = some (ParamValue.multi ["a", "b"]) := by
  constructor
  · have := C2_normalizer_single_vs_multi
      [("MAXREC", "5"), ("maxrec", "9"), ("POS", "a"), ("pos", "b")]
      "MAXREC" (by decide)
    rw [this]
    decide
  · have := C2_normalizer_single_vs_multi
      [("MAXREC", "5"), ("maxrec", "9"), ("POS", "a"), ("pos", "b")]
      "POS" (by decide)
    rw [this]
    decide

/-! ## Data collections

`src/sia/models/data_collections.py` (`ButlerDataCollection`),
`src/vosiav2/models/data_collections.py` (`DataCollection`),
`src/sia/services/data_collections.py` (`DataCollectionService`), and
`src/vosiav2/services/config_reader.py` (`get_data_collection`). -/

/-- `ButlerDataCollection` (sia): all identifying fields are required. -/
structure ButlerDataCollection where
  config : String
  repository : String
  label : String
  name : String
  butler_type : ButlerType
  datalink_url : Option String := none
  deriving DecidableEq, Repr

/-- `DataCollection` (vosiav2): every field optional, `default` flag. -/
structure DataCollection where
  config : Option String := none
  label : Option String := none
  repository : Option String := none
  isDefault : Bool := false
  deriving DecidableEq, Repr

namespace DataCollectionService

/-- `DataCollectionService._get_data_collection`: empty value raises
`ValueError(f"{key.capitalize()} is required.")`; otherwise a linear
scan compares `getattr(collection, attribute).upper() == value.upper()`
and a miss raises
`KeyError(f"{key.capitalize()} {value} not found in Data collections.")`. -/
def get_data_collection_impl
    (butler_data_collections : List ButlerDataCollection)
    (key value : String) (attr : ButlerDataCollection → String) :
    Except PyExc ButlerDataCollection :=
  if value = "" then
    .error (.valueError (pyCapitalize key ++ " is required."))
  else
    match butler_data_collections.find?
        (fun c => pyUpper (attr c) = pyUpper value) with
    | some c => .ok c
    | none =>
      .error (.keyError (pyCapitalize key ++ " " ++ value ++
        " not found in Data collections."))

/-- `DataCollectionService.get_data_collection_by_label`. -/
def get_data_collection_by_label
    (butler_data_collections : List ButlerDataCollection)
    (label : String) : Except PyExc ButlerDataCollection :=
  get_data_collection_impl butler_data_collections "label" label
    (fun c => c.label)

/-- `DataCollectionService.get_data_collection_by_name`. -/
def get_data_collection_by_name
    (butler_data_collections : List ButlerDataCollection)
    (name : String) : Except PyExc ButlerDataCollection :=
  get_data_collection_impl butler_data_collections "name" name
    (fun c => c.name)

end DataCollectionService

/-- `get_data_collection` (vosiav2 `config_reader.py`): a falsy label
falls back to the first configured collection (`FatalFault` when none
are configured); otherwise a case-sensitive scan over `label`, with a
`UsageFault` on a miss (the detail string is the source's literal,
un-interpolated `"Label {label} not found in Data collections."`). -/
def get_data_collection (label : Option String)
    (data_collections : List DataCollection) :
    Except PyExc DataCollection :=
  if optStrFalsy label then
    match data_collections with
    | [] => .error (.fatalFault ("No Data Collections configured. " ++
        "Please configure at least one Data collection."))
    | c :: _ => .ok c
  else
    match data_collections.find? (fun c => c.label = label) with
    | some c => .ok c
    | none =>
      .error (.usageFault "Label {label} not found in Data collections.")

/-- The one collection configured in `src/sia/constants.py`
(`COLLECTIONS`), as a sia `ButlerDataCollection`. -/
def dp02ButlerCollection : ButlerDataCollection :=
  { config := "https://raw.githubusercontent.com/lsst-dm/dax_obscore/253b157fccdb8d9255bb4afbe9bf729618cdb367/configs/dp02.yaml"
    repository := "https://data-dev.lsst.cloud/api/butler/repo/dp02/butler.yaml"
    label := "LSST.DP02"
    name := "dp02"
    butler_type := .REMOTE }

/-- The one collection configured in `src/vosiav2/constants.py`
(`COLLECTIONS`). -/
def dp02DataCollection : DataCollection :=
  { config := some "https://raw.githubusercontent.com/lsst-dm/dax_obscore/253b157fccdb8d9255bb4afbe9bf729618cdb367/configs/dp02.yaml"
    label := some "LSST.DP02"
    repository := some "https://data-dev.lsst.cloud/api/butler/repo/dp02/butler.yaml" }

/-- C3 -- Evaluation at the failing input: with exactly one collection
labeled `"LSST.DP02"`, the sia `DataCollectionService` label lookup
matches `"lsst.dp02"` case-insensitively and returns the collection
instead of failing (the vosiav2 `get_data_collection`, by contrast, is
case-sensitive exactly as the claim states). -/
theorem C3_sia_label_lookup_is_case_insensitive :
    DataCollectionService.get_data_collection_by_label
      [dp02ButlerCollection] "lsst.dp02" = .ok dp02ButlerCollection ∧
    get_data_collection (some "lsst.dp02") [dp02DataCollection] =
      .error (.usageFault
        "Label {label} not found in Data collections.") ∧
    get_data_collection (some "LSST.DP02") [dp02DataCollection] =
      .ok dp02DataCollection := by
  refine ⟨?_, ?_, ?_⟩ <;> decide

/-- C10 -- For both lookup attributes (`label`, `name`), an empty value
raises `ValueError("<Key> is required.")` regardless of the configured
collections (so before any search), while a non-empty value with no
match raises a `KeyError` — a distinct exception kind. -/
theorem C10_empty_lookup_value_is_value_error
    (cols : List ButlerDataCollection) (key : String)
    (attr : ButlerDataCollection → String)
    (hkey : key = "label" ∨ key = "name") (value : String)
    (hv : value ≠ "")
    (hmiss : cols.find? (fun c => pyUpper (attr c) = pyUpper value) =
      none) :
    DataCollectionService.get_data_collection_impl cols key "" attr =
      .error (.valueError (pyCapitalize key ++ " is required.")) ∧
    pyCapitalize key ++ " is required." =
      (if key = "label" then "Label is required." else
        "Name is required.") ∧
    DataCollectionService.get_data_collection_impl cols key value
        attr =
      .error (.keyError (pyCapitalize key ++ " " ++ value ++
        " not found in Data collections.")) ∧
    ∀ m m' : String, PyExc.valueError m ≠ PyExc.keyError m' := by
  refine ⟨?_, ?_, ?_, ?_⟩
  · simp [DataCollectionService.get_data_collection_impl]
  · rcases hkey with hk | hk <;> subst hk <;> decide
  · simp [DataCollectionService.get_data_collection_impl, hv, hmiss]
  · intro m m' hcontra
    exact PyExc.noConfusion hcontra

/-- C10 witness: a registry holding the DP02 collection, looked up with
an empty label and with the unmatched label `"NOPE"`. -/
theorem C10_empty_lookup_value_is_value_error_witness :
    DataCollectionService.get_data_collection_impl [dp02ButlerCollection]
        "label" "" (fun c => c.label) =
      .error (.valueError (pyCapitalize "label" ++ " is required.")) ∧
    pyCapitalize "label" ++ " is required." =
      (if "label" = "label" then "Label is required." else
        "Name is required.") ∧
    DataCollectionService.get_data_collection_impl [dp02ButlerCollection]
        "label" "NOPE" (fun c => c.label) =
      .error (.keyError (pyCapitalize "label" ++ " " ++ "NOPE" ++
        " not found in Data collections.")) ∧
    ∀ m m' : String, PyExc.valueError m ≠ PyExc.keyError m' :=
  C10_empty_lookup_value_is_value_error [dp02ButlerCollection] "label"
    (fun c => c.label) (Or.inl rfl) "NOPE" (by decide) (by decide)

/-- A non-default collection listed first in the configuration. -/
def collectionA : DataCollection :=
  { label := some "A", repository := some "https://a.example/butler.yaml" }

/-- A collection marked `default=true`, listed second. -/
def collectionB : DataCollection :=
  { label := some "B", repository := some "https://b.example/butler.yaml"
    isDefault := true }

/-- C7 counterexample -- with `collectionA` (not marked default) first
and `collectionB` (marked default) second, resolving the default
collection returns `collectionA`: the `default` flag is never consulted,
so the claim "returns the first configured collection marked
default=true" fails. -/
theorem C7_default_flag_not_consulted :
    get_data_collection none [collectionA, collectionB] =
      .ok collectionA ∧
    collectionA.isDefault = false ∧
    collectionB.isDefault = true ∧
    collectionA ≠ collectionB := by
  refine ⟨?_, ?_, ?_, ?_⟩ <;> decide

/-- C7 (amended) -- Resolving the default data collection returns the
first configured collection in configuration order, regardless of the
`default` flag, and raises a `FatalFault` whose message contains
`"No Data Collections configured"` when zero collections are
configured. -/
theorem C7_default_collection_resolution (cols : List DataCollection) :
    (cols = [] →
      get_data_collection none cols =
        .error (.fatalFault ("No Data Collections configured. " ++
          "Please configure at least one Data collection.")) ∧
      ∃ a b : String,
        PyExc.str (.fatalFault ("No Data Collections configured. " ++
          "Please configure at least one Data collection.")) =
          a ++ "No Data Collections configured" ++ b) ∧
    ∀ c rest, cols = c :: rest → get_data_collection none cols = .ok c := by
  constructor
  · intro hnil
    subst hnil
    refine ⟨rfl, "FatalFault: ",
      ". Please configure at least one Data collection.", ?_⟩
    rfl
  · intro c rest hcons
    subst hcons
    rfl

/-- C7 witness: the empty registry raises the `FatalFault`, and the
two-collection registry resolves to the first collection. -/
theorem C7_default_collection_resolution_witness :
    (get_data_collection none [] =
      .error (.fatalFault ("No Data Collections configured. " ++
        "Please configure at least one Data collection.")) ∧
    ∃ a b : String,
      PyExc.str (.fatalFault ("No Data Collections configured. " ++
        "Please configure at least one Data collection.")) =
        a ++ "No Data Collections configured" ++ b) ∧
    get_data_collection none [collectionA, collectionB] =
      .ok collectionA :=
  ⟨(C7_default_collection_resolution []).1 rfl,
   (C7_default_collection_resolution [collectionA, collectionB]).2
     collectionA [collectionB] rfl⟩

/-! ## Engine parameter adapter
(`SIAQueryParams.to_butler_parameters`, `src/sia/models/sia_query_params.py`)

The external constructor `SIAv2Parameters.from_siav2` (from
`lsst.dax.obscore`) owns the range/shape grammar; it is passed in as a
function so that the `try/except ValueError` wrapper around it is the
only logic modelled here. -/

/-- The external `lsst.dax.obscore.siav2.SIAv2Parameters`, modelled
minimally: the only field the service itself reads back is `maxrec`. -/
structure SIAv2Parameters where
  maxrec : Option Nat := none
  deriving DecidableEq, Repr

/-- The keyword arguments `to_butler_parameters` builds for
`SIAv2Parameters.from_siav2`: unset list fields become `()`, `calib` is
converted to plain integers, `maxrec` is stringified when present. -/
structure SIAv2FromSiav2Args where
  instrument : List String
  pos : List String
  time : List String
  band : List String
  exptime : List String
  calib : List Int
  maxrec : Option String
  deriving DecidableEq, Repr

/-- `SIAQueryParams._convert_calib`. -/
def SIAQueryParams.convert_calib : Option (List CalibLevel) → List Int
  | none => []
  | some levels => levels.map CalibLevel.value

/-- The argument record `to_butler_parameters` passes to
`SIAv2Parameters.from_siav2`. -/
def SIAQueryParams.to_butler_args (p : SIAQueryParams) :
    SIAv2FromSiav2Args :=
  { instrument := p.instrument.getD []
    pos := p.pos.getD []
    time := p.time.getD []
    band := p.band.getD []
    exptime := p.exptime.getD []
    calib := SIAQueryParams.convert_calib p.calib
    maxrec := p.maxrec.map toString }

/-- `SIAQueryParams.to_butler_parameters`: calls `from_siav2` and
re-raises any `ValueError` as `UsageFaultError(detail=str(exc))`. -/
def SIAQueryParams.to_butler_parameters
    (from_siav2 : SIAv2FromSiav2Args → Except PyExc SIAv2Parameters)
    (p : SIAQueryParams) : Except PyExc SIAv2Parameters :=
  match from_siav2 p.to_butler_args with
  | .ok r => .ok r
  | .error (.valueError m) => .error (.usageFault m)
  | .error e => .error e

/-- C4 -- Whenever the backend parameter constructor raises a
`ValueError`, the adapter re-raises it as a `UsageFault` whose rendered
message is `"UsageFault: <original message>"`, and no `ValueError`
escapes the adapter boundary. -/
theorem C4_value_error_becomes_usage_fault
    (from_siav2 : SIAv2FromSiav2Args → Except PyExc SIAv2Parameters)
    (p : SIAQueryParams) (msg : String)
    (h : from_siav2 p.to_butler_args = .error (.valueError msg)) :
    SIAQueryParams.to_butler_parameters from_siav2 p =
      .error (.usageFault msg) ∧
    PyExc.str (.usageFault msg) = "UsageFault: " ++ msg ∧
    ∀ m : String,
      SIAQueryParams.to_butler_parameters from_siav2 p ≠
        .error (.valueError m) := by
  have h1 : SIAQueryParams.to_butler_parameters from_siav2 p =
      .error (.usageFault msg) := by
    unfold SIAQueryParams.to_butler_parameters
    rw [h]
  refine ⟨h1, rfl, ?_⟩
  intro m hcontra
  rw [h1] at hcontra
  simp at hcontra

/-- C4 witness: a backend rejecting an unrecognized shape keyword turns
into the corresponding `UsageFault`. -/
theorem C4_value_error_becomes_usage_fault_witness :
    SIAQueryParams.to_butler_parameters
        (fun _ => .error (.valueError "Unrecognized shape SOMESHAPE"))
        { pos := some ["SOMESHAPE 321 0 1"] } =
      .error (.usageFault "Unrecognized shape SOMESHAPE") ∧
    PyExc.str (.usageFault "Unrecognized shape SOMESHAPE") =
      "UsageFault: " ++ "Unrecognized shape SOMESHAPE" ∧
    ∀ m : String,
      SIAQueryParams.to_butler_parameters
          (fun _ => .error (.valueError "Unrecognized shape SOMESHAPE"))
          { pos := some ["SOMESHAPE 321 0 1"] } ≠
        .error (.valueError m) :=
  C4_value_error_becomes_usage_fault
    (fun _ => .error (.valueError "Unrecognized shape SOMESHAPE"))
    { pos := some ["SOMESHAPE 321 0 1"] } "Unrecognized shape SOMESHAPE"
    rfl

/-! ## Engine factory (`Factory.create_butler`, `src/sia/factory.py`) -/

/-- An opaque Butler handle: built from a local repository config, from
the process-wide `LabeledButlerFactory`, or by patching registry
defaults onto an existing handle (the `RegistryDefaults(instrument=...)`
workaround). -/
inductive Butler where
  | direct (repository : String)
  | labeled (label : String) (access_token : String)
  | withRegistryDefaults (b : Butler) (instrument : String)
  deriving DecidableEq, Repr

/-- `Factory.create_butler`: validates the configuration path, then per
Butler type validates repository (DIRECT) or label, token and the
labeled factory (REMOTE); the REMOTE handle gets the collection's
default instrument patched in. The `defaultinstrument` attribute read
here is passed separately since the modelled `ButlerDataCollection`
mirrors the checked-in model file, which does not declare it. -/
def Factory.create_butler (butler_type : ButlerType)
    (labeled_butler_factory : Option (String → String → Butler))
    (config_path : String) (butler_collection : ButlerDataCollection)
    (defaultinstrument : String) (token : Option String) :
    Except PyExc Butler :=
  if config_path = "" then
    .error (.valueError
      "No Butler configuration file configured <butler_config>")
  else
    match butler_type with
    | .DIRECT =>
      if butler_collection.repository = "" then
        .error (.valueError "No Butler repository configured <butler_repo>")
      else .ok (.direct butler_collection.repository)
    | .REMOTE =>
      if butler_collection.label = "" then
        .error (.fatalFault "No Butler label configured <label>")
      else if optStrFalsy token then
        .error (.fatalFault "Token is required for RemoteButlerQueryEngine")
      else
        match labeled_butler_factory with
        | none => .error (.fatalFault "No LabeledButlerFactory configured")
        | some create =>
          .ok (.withRegistryDefaults
            (create butler_collection.label (token.getD ""))
            defaultinstrument)

/-- C6 -- Creating a REMOTE engine with a non-empty label but a falsy
token raises a `FatalFault` containing `"Token is required"`; with a
falsy label it raises a `FatalFault` containing
`"No Butler label configured"`. -/
theorem C6_remote_engine_missing_credentials
    (lbf : Option (String → String → Butler)) (config_path : String)
    (hconf : config_path ≠ "") (col : ButlerDataCollection)
    (defaultinstrument : String) (token : Option String) :
    (col.label ≠ "" → optStrFalsy token = true →
      Factory.create_butler .REMOTE lbf config_path col
          defaultinstrument token =
        .error (.fatalFault
          "Token is required for RemoteButlerQueryEngine") ∧
      ∃ a b : String,
        PyExc.str (.fatalFault
          "Token is required for RemoteButlerQueryEngine") =
          a ++ "Token is required" ++ b) ∧
    (col.label = "" →
      Factory.create_butler .REMOTE lbf config_path col
          defaultinstrument token =
        .error (.fatalFault "No Butler label configured <label>") ∧
      ∃ a b : String,
        PyExc.str (.fatalFault "No Butler label configured <label>") =
          a ++ "No Butler label configured" ++ b) := by
  constructor
  · intro hlabel htoken
    refine ⟨?_, "FatalFault: ", " for RemoteButlerQueryEngine", rfl⟩
    simp [Factory.create_butler, hconf, hlabel, htoken]
  · intro hlabel
    refine ⟨?_, "FatalFault: ", " <label>", rfl⟩
    simp [Factory.create_butler, hconf, hlabel]

/-- C6 witness: the DP02 collection with no token, and a collection with
an empty label. -/
theorem C6_remote_engine_missing_credentials_witness :
    Factory.create_butler .REMOTE none "dp02.yaml" dp02ButlerCollection
        "LSSTCam-imSim" none =
      .error (.fatalFault
        "Token is required for RemoteButlerQueryEngine") ∧
    Factory.create_butler .REMOTE none "dp02.yaml"
        { dp02ButlerCollection with label := "" } "LSSTCam-imSim"
        (some "sometoken") =
      .error (.fatalFault "No Butler label configured <label>") :=
  ⟨((C6_remote_engine_missing_credentials none "dp02.yaml" (by decide)
      dp02ButlerCollection "LSSTCam-imSim" none).1 (by decide) rfl).1,
   ((C6_remote_engine_missing_credentials none "dp02.yaml" (by decide)
      { dp02ButlerCollection with label := "" } "LSSTCam-imSim"
      (some "sometoken")).2 rfl).1⟩

/-! ## Response handler
(`src/sia/services/response_handler.py`)

`process_query` builds a Butler and the obscore config, then either
renders the self-description template (when `params.maxrec == 0`) or
runs the backend query. The spectral-band bound type stays abstract
(`α`): the service only copies the bounds, it never computes with
them. -/

/-- Python `str.strip` (whitespace removed from both ends). -/
def pyStrip (s : String) : String :=
  ⟨((s.data.dropWhile Char.isWhitespace).reverse.dropWhile
    Char.isWhitespace).reverse⟩

/-- `BandInfo`: one derived spectral band row of the self-description
template. -/
structure BandInfo (α : Type) where
  label : String
  low : α
  high : α
  deriving DecidableEq, Repr

/-- The slice of the external `lsst.dax.obscore.ExporterConfig` that
`ResponseHandlerService` reads. -/
structure ExporterConfig (α : Type) where
  spectral_ranges : List (String × (Option α × Option α))
  obs_collection : String
  facility_name : String
  deriving DecidableEq, Repr

/-- The template context of `self_description_response` (the fields
derived from the collection and config; URL plumbing is outside the
model). -/
structure SelfDescription (α : Type) where
  instruments : List String
  collections : List String
  facility_name : String
  bands : List (BandInfo α)
  deriving DecidableEq, Repr

/-- The two possible responses of `process_query`. -/
inductive SIAResponse (α R : Type) where
  | selfDescription (d : SelfDescription α)
  | votable (result : R)
  deriving DecidableEq

namespace ResponseHandlerService

/-- `ResponseHandlerService._generate_band_info`: one `BandInfo` labeled
`f"Rubin band {band_name}"` per range with both bounds present; ranges
missing either bound are skipped. -/
def generate_band_info {α : Type} :
    List (String × (Option α × Option α)) → List (BandInfo α)
  | [] => []
  | (band_name, (some low, some high)) :: rest =>
    { label := "Rubin band " ++ band_name, low := low, high := high } ::
      generate_band_info rest
  | (_, (none, _)) :: rest => generate_band_info rest
  | (_, (some _, none)) :: rest => generate_band_info rest

/-- `ResponseHandlerService.self_description_response`, reduced to the
template context it renders. -/
def self_description_response {α B : Type} (butler : B)
    (query_dimension_records : B → List String)
    (obscore_config : ExporterConfig α) : SelfDescription α :=
  { instruments := query_dimension_records butler
    collections := [obscore_config.obs_collection]
    facility_name := pyStrip obscore_config.facility_name
    bands := generate_band_info obscore_config.spectral_ranges }

/-- `ResponseHandlerService.process_query`: self-description when
`params.maxrec == 0`, otherwise execute `sia_query` and wrap the
VOTable. The Butler handle, its `query_dimension_records` and the
`sia_query` backend are external and passed in as values/functions. -/
def process_query {α B R : Type} (butler : B)
    (obscore_config : ExporterConfig α)
    (query_dimension_records : B → List String)
    (sia_query : B → ExporterConfig α → SIAv2Parameters → R)
    (params : SIAv2Parameters) : SIAResponse α R :=
  if params.maxrec = some 0 then
    .selfDescription
      (self_description_response butler query_dimension_records
        obscore_config)
  else
    .votable (sia_query butler obscore_config params)

end ResponseHandlerService

/-- The emitted band list corresponds, in order and one-to-one, to
exactly the spectral ranges with both bounds present, each labeled
`"Rubin band <name>"` and carrying the original bounds. -/
theorem generate_band_info_spec {α : Type}
    (rs : List (String × (Option α × Option α))) :
    List.Forall₂
      (fun (nr : String × (Option α × Option α)) (b : BandInfo α) =>
        b.label = "Rubin band " ++ nr.1 ∧ some b.low = nr.2.1 ∧
          some b.high = nr.2.2)
      (rs.filter (fun nr => nr.2.1.isSome && nr.2.2.isSome))
      (ResponseHandlerService.generate_band_info rs) := by
  induction rs with
  | nil => simp [ResponseHandlerService.generate_band_info]
  | cons head rest ih =>
    obtain ⟨name, lo, hi⟩ := head
    cases lo with
    | none => simpa [ResponseHandlerService.generate_band_info] using ih
    | some l =>
      cases hi with
      | none => simpa [ResponseHandlerService.generate_band_info] using ih
      | some h =>
        simp only [ResponseHandlerService.generate_band_info,
          List.filter_cons]
        exact List.Forall₂.cons ⟨rfl, rfl, rfl⟩ ih

/-- C5 (amended) -- With `maxrec == 0` the response is the
self-description document, independent of the backend query function
(no data query is executed), and its band table has exactly one
descriptor per spectral range with both bounds present, labeled
`"Rubin band <name>"` (the facility part of the label is the hardcoded
`"Rubin"`, not the config's facility name); ranges missing either bound
are skipped entirely. -/
theorem C5_self_description_mode {α B R : Type} (butler : B)
    (obscore_config : ExporterConfig α)
    (query_dimension_records : B → List String)
    (sia_query sia_query' : B → ExporterConfig α → SIAv2Parameters → R)
    (params : SIAv2Parameters) (h : params.maxrec = some 0) :
    ResponseHandlerService.process_query butler obscore_config
        query_dimension_records sia_query params =
      .selfDescription
        { instruments := query_dimension_records butler
          collections := [obscore_config.obs_collection]
          facility_name := pyStrip obscore_config.facility_name
          bands := ResponseHandlerService.generate_band_info
            obscore_config.spectral_ranges } ∧
    ResponseHandlerService.process_query butler obscore_config
        query_dimension_records sia_query params =
      ResponseHandlerService.process_query butler obscore_config
        query_dimension_records sia_query' params ∧
    List.Forall₂
      (fun (nr : String × (Option α × Option α)) (b : BandInfo α) =>
        b.label = "Rubin band " ++ nr.1 ∧ some b.low = nr.2.1 ∧
          some b.high = nr.2.2)
      (obscore_config.spectral_ranges.filter
        (fun nr => nr.2.1.isSome && nr.2.2.isSome))
      (ResponseHandlerService.generate_band_info
        obscore_config.spectral_ranges) := by
  refine ⟨?_, ?_, generate_band_info_spec _⟩
  · simp [ResponseHandlerService.process_query, h,
      ResponseHandlerService.self_description_response]
  · simp [ResponseHandlerService.process_query, h]

/-- C5 witness: a config with one complete range `g=(1,2)` and one
partial range `u=(None,3)`, queried with `maxrec = 0` under two
different backend query functions. -/
theorem C5_self_description_mode_witness :
    ResponseHandlerService.process_query () --
        (α := Nat) (R := Nat)
        { spectral_ranges := [("g", (some 1, some 2)), ("u", (none, some 3))]
          obs_collection := "LSST.DP02"
          facility_name := " Rubin " }
        (fun _ => ["LSSTCam-imSim"]) (fun _ _ _ => 0)
        { maxrec := some 0 } =
      .selfDescription
        { instruments := ["LSSTCam-imSim"]
          collections := ["LSST.DP02"]
          facility_name := pyStrip " Rubin "
          bands := ResponseHandlerService.generate_band_info
            [("g", (some 1, some 2)), ("u", (none, some 3))] } ∧
    ResponseHandlerService.process_query ()
        { spectral_ranges := [("g", (some 1, some 2)), ("u", (none, some 3))]
          obs_collection := "LSST.DP02"
          facility_name := " Rubin " }
        (fun _ => ["LSSTCam-imSim"]) (fun _ _ _ => 0)
        { maxrec := some 0 } =
      ResponseHandlerService.process_query ()
        { spectral_ranges := [("g", (some 1, some 2)), ("u", (none, some 3))]
          obs_collection := "LSST.DP02"
          facility_name := " Rubin " }
        (fun _ => ["LSSTCam-imSim"]) (fun _ _ _ => 1)
        { maxrec := some 0 } ∧
    List.Forall₂
      (fun (nr : String × (Option Nat × Option Nat)) (b : BandInfo Nat) =>
        b.label = "Rubin band " ++ nr.1 ∧ some b.low = nr.2.1 ∧
          some b.high = nr.2.2)
      ([("g", (some 1, some 2)), ("u", (none, some 3))].filter
        (fun nr => nr.2.1.isSome && nr.2.2.isSome))
      (ResponseHandlerService.generate_band_info
        [("g", (some 1, some 2)), ("u", (none, some 3))]) :=
  C5_self_description_mode ()
    { spectral_ranges := [("g", (some 1, some 2)), ("u", (none, some 3))]
      obs_collection := "LSST.DP02"
      facility_name := " Rubin " }
    (fun _ => ["LSSTCam-imSim"]) (fun _ _ _ => 0) (fun _ _ _ => 1)
    { maxrec := some 0 } rfl

/-- C5 counterexample -- with an export config whose facility name is
`"HST"` and one complete range `g=(1,2)`, the emitted descriptor is
labeled `"Rubin band g"`, not `"<facility> band <name>"` =
`"HST band g"`: the facility part of the label is hardcoded. -/
theorem C5_band_label_is_not_config_facility :
    ResponseHandlerService.process_query () (α := Nat) (R := Nat)
        { spectral_ranges := [("g", (some 1, some 2))]
          obs_collection := "c"
          facility_name := "HST" }
        (fun _ => []) (fun _ _ _ => 0) { maxrec := some 0 } =
      .selfDescription
        { instruments := []
          collections := ["c"]
          facility_name := "HST"
          bands := [{ label := "Rubin band g", low := 1, high := 2 }] } ∧
    "Rubin band g" ≠ "HST" ++ " band " ++ "g" := by
  refine ⟨rfl, ?_⟩
  decide

/-! ## Availability (`src/sia/services/availability.py`)

The remote checker wraps its probe in
`except (KeyError, ValueError, FatalFaultError)`; the httpx client is
passed in as `client_get`, whose `Except` error channel carries the
exception the call would raise. -/

/-- The slice of an httpx `Response` the checker reads. -/
structure HttpResponse where
  status_code : Nat
  deriving DecidableEq, Repr

/-- `vo_models.vosi.availability.Availability`. -/
structure Availability where
  available : Bool
  note : List String := []
  deriving DecidableEq, Repr

/-- The exception types named in the remote checker's `except` clause:
`(KeyError, ValueError, FatalFaultError)`. -/
def caughtByAvailabilityChecker : PyExc → Bool
  | .keyError _ => true
  | .valueError _ => true
  | .fatalFault _ => true
  | _ => false

/-- `DirectButlerAvailabilityChecker.check_availability`: always
available. -/
def DirectButlerAvailabilityChecker.check_availability
    (_collection : ButlerDataCollection) : Except PyExc Availability :=
  .ok { available := true }

/-- `RemoteButlerAvailabilityChecker.check_availability`: GET the
repository URL (`None` when the repository is falsy, giving
`available=False`), available iff the status is exactly 200; only the
three exception types in the `except` clause are turned into an
unavailable report with the exception text as a note - anything else
the probe raises leaves the `try` block unhandled. -/
def RemoteButlerAvailabilityChecker.check_availability
    (client_get : String → Except PyExc HttpResponse)
    (collection : ButlerDataCollection) : Except PyExc Availability :=
  let body : Except PyExc Availability :=
    if collection.repository = "" then
      .ok { available := false }
    else
      match client_get collection.repository with
      | .ok r => .ok { available := r.status_code == 200 }
      | .error e => .error e
  match body with
  | .error e =>
    if caughtByAvailabilityChecker e then
      .ok { available := false, note := [e.str] }
    else .error e
  | .ok a => .ok a

/-- `AvailabilityService.get_availability` with an explicit checker
table (`self._checkers`): dispatch on the collection's Butler type, or
the fail-safe "Unknown Butler type" report when the type has no
entry. -/
def AvailabilityService.get_availability_with
    (checkers : List (ButlerType ×
      (ButlerDataCollection → Except PyExc Availability)))
    (collection : ButlerDataCollection) : Except PyExc Availability :=
  match checkers.find? (fun kv => kv.1 = collection.butler_type) with
  | some kv => kv.2 collection
  | none => .ok { available := false, note := ["Unknown Butler type"] }

/-- `AvailabilityService.get_availability` with the checker table built
in `__init__`: DIRECT and REMOTE. -/
def AvailabilityService.get_availability
    (client_get : String → Except PyExc HttpResponse)
    (collection : ButlerDataCollection) : Except PyExc Availability :=
  AvailabilityService.get_availability_with
    [(.DIRECT, DirectButlerAvailabilityChecker.check_availability),
     (.REMOTE, RemoteButlerAvailabilityChecker.check_availability
       client_get)]
    collection

/-- C9 (amended) -- DIRECT collections always report available; REMOTE
collections report available iff the probe status is exactly 200, and a
`KeyError`/`ValueError`/`FatalFault` raised by the probe is caught and
reported as unavailable with the exception text as a note (other
exception types, e.g. httpx transport errors, propagate); a Butler type
with no checker entry reports unavailable with an explanatory note. -/
theorem C9_availability_dispatch
    (client_get : String → Except PyExc HttpResponse)
    (col : ButlerDataCollection) :
    (col.butler_type = .DIRECT →
      AvailabilityService.get_availability client_get col =
        .ok { available := true }) ∧
    (col.butler_type = .REMOTE → col.repository ≠ "" →
      (∀ r, client_get col.repository = .ok r →
        AvailabilityService.get_availability client_get col =
          .ok { available := r.status_code == 200 }) ∧
      (∀ e, client_get col.repository = .error e →
        caughtByAvailabilityChecker e = true →
        AvailabilityService.get_availability client_get col =
          .ok { available := false, note := [e.str] }) ∧
      (∀ e, client_get col.repository = .error e →
        caughtByAvailabilityChecker e = false →
        AvailabilityService.get_availability client_get col =
          .error e)) ∧
    (∀ checkers, checkers.find? (fun kv => kv.1 = col.butler_type) =
        none →
      AvailabilityService.get_availability_with checkers col =
        .ok { available := false, note := ["Unknown Butler type"] }) := by
  refine ⟨?_, ?_, ?_⟩
  · intro hd
    simp [AvailabilityService.get_availability,
      AvailabilityService.get_availability_with, hd,
      DirectButlerAvailabilityChecker.check_availability]
  · intro hr hrepo
    refine ⟨?_, ?_, ?_⟩
    · intro r hget
      simp [AvailabilityService.get_availability,
        AvailabilityService.get_availability_with, hr,
        RemoteButlerAvailabilityChecker.check_availability, hrepo, hget]
    · intro e hget hcaught
      simp [AvailabilityService.get_availability,
        AvailabilityService.get_availability_with, hr,
        RemoteButlerAvailabilityChecker.check_availability, hrepo, hget,
        hcaught]
    · intro e hget hcaught
      simp [AvailabilityService.get_availability,
        AvailabilityService.get_availability_with, hr,
        RemoteButlerAvailabilityChecker.check_availability, hrepo, hget,
        hcaught]
  · intro checkers hfind
    simp [AvailabilityService.get_availability_with, hfind]

/-- C9 witness: the DP02 REMOTE collection probed with status 200,
status 404, a caught `ValueError`, and a checker table with no entry
for REMOTE. -/
theorem C9_availability_dispatch_witness :
    AvailabilityService.get_availability (fun _ => .ok { status_code := 200 })
        dp02ButlerCollection = .ok { available := true } ∧
    AvailabilityService.get_availability (fun _ => .ok { status_code := 404 })
        dp02ButlerCollection = .ok { available := false } ∧
    AvailabilityService.get_availability
        (fun _ => .error (.valueError "bad URL")) dp02ButlerCollection =
      .ok { available := false, note := ["bad URL"] } ∧
    AvailabilityService.get_availability_with [] dp02ButlerCollection =
      .ok { available := false, note := ["Unknown Butler type"] } := by
  refine ⟨?_, ?_, ?_, ?_⟩
  · exact ((C9_availability_dispatch (fun _ => .ok { status_code := 200 })
      dp02ButlerCollection).2.1 rfl (by decide)).1 { status_code := 200 }
      rfl
  · exact ((C9_availability_dispatch (fun _ => .ok { status_code := 404 })
      dp02ButlerCollection).2.1 rfl (by decide)).1 { status_code := 404 }
      rfl
  · exact ((C9_availability_dispatch
      (fun _ => .error (.valueError "bad URL"))
      dp02ButlerCollection).2.1 rfl (by decide)).2.1
      (.valueError "bad URL") rfl rfl
  · exact (C9_availability_dispatch (fun _ => .ok { status_code := 200 })
      dp02ButlerCollection).2.2 [] rfl

/-- C9 counterexample -- an httpx transport error
(`"All connection attempts failed"`) is not among the caught exception
types, so the availability check propagates it to the caller, both at
the checker and at the service level: the claim that no exception ever
propagates is false. -/
theorem C9_transport_error_propagates :
    RemoteButlerAvailabilityChecker.check_availability
        (fun _ => .error (.requestError "All connection attempts failed"))
        dp02ButlerCollection =
      .error (.requestError "All connection attempts failed") ∧
    AvailabilityService.get_availability
        (fun _ => .error (.requestError "All connection attempts failed"))
        dp02ButlerCollection =
      .error (.requestError "All connection attempts failed") := by
  refine ⟨?_, ?_⟩ <;> decide
